import Mathlib

/-!
# GC trigger-code classification and parallel-dispatcher encodings (OMR `gc/base`)

A shallow embedding of `gc/base/GCCode.cpp` and of the declarations of
`gc/base/ParallelDispatcher.hpp`.

* A trigger code (`uint32_t _gcCode`) is a natural number.
* The `J9MMCONSTANT_*` macros are declared in a header that `GCCode.cpp` only
  includes, so their numeric values are a parameter (`GCConstants`).
  The only fact used about them is the one the C++ compiler enforces: the
  `case` labels of one `switch` are pairwise distinct.
* `#if defined(OMR_GC_IDLE_HEAP_MANAGER)` is a boolean parameter.
* A member function that can hit `Assert_MM_unreachable()` returns
  `Except Fault Bool`; the fatal assertion is `Except.error`.
* `MM_ParallelDispatcher` is a record of its data members; pointers are
  addresses (`NULL` is 0); `#if defined(J9VM_OPT_CRIU_SUPPORT)` is a boolean
  parameter of the constructor. Inline members are embedded in state-passing
  style: they return their answer together with the dispatcher after the call.
* Members that the header only declares are modelled from the specification:
  `expandThreadPool` and `reinitializeThreadPool` over a table of worker
  slots, `run` as the steps of the calling thread; every such definition says
  so in its comment.
-/

namespace OMR

/-- Numeric values of the `J9MMCONSTANT_*` trigger codes used by `GCCode.cpp`.
The macros are declared in a header that `GCCode.cpp` only includes, so the
values are left abstract. -/
structure GCConstants where
  J9MMCONSTANT_IMPLICIT_GC_AGGRESSIVE : Nat
  J9MMCONSTANT_IMPLICIT_GC_DEFAULT : Nat
  J9MMCONSTANT_IMPLICIT_GC_EXCESSIVE : Nat
  J9MMCONSTANT_IMPLICIT_GC_PERCOLATE : Nat
  J9MMCONSTANT_IMPLICIT_GC_PERCOLATE_AGGRESSIVE : Nat
  J9MMCONSTANT_IMPLICIT_GC_PERCOLATE_CRITICAL_REGIONS : Nat
  J9MMCONSTANT_IMPLICIT_GC_PERCOLATE_UNLOADING_CLASSES : Nat
  J9MMCONSTANT_IMPLICIT_GC_COMPLETE_CONCURRENT : Nat
  J9MMCONSTANT_IMPLICIT_GC_PERCOLATE_ABORTED_SCAVENGE : Nat
  J9MMCONSTANT_EXPLICIT_GC_NATIVE_OUT_OF_MEMORY : Nat
  J9MMCONSTANT_EXPLICIT_GC_NOT_AGGRESSIVE : Nat
  J9MMCONSTANT_EXPLICIT_GC_RASDUMP_COMPACT : Nat
  J9MMCONSTANT_EXPLICIT_GC_SYSTEM_GC : Nat
  J9MMCONSTANT_EXPLICIT_GC_IDLE_GC : Nat
  J9MMCONSTANT_EXPLICIT_GC_PREPARE_FOR_CHECKPOINT : Nat
  deriving DecidableEq, Repr

/-- The way a classification call can end without an answer. -/
inductive Fault where
  /-- The assertion `Assert_MM_unreachable()` fired. -/
  | unreachable
  deriving DecidableEq, Repr

deriving instance DecidableEq for Except

/-- Modelled from the spec: the macro `Assert_MM_unreachable` is declared in
`ModronAssertions.h`, which is not among the sources; the spec calls hitting
it "a fatal internal-consistency failure" that "terminate[s] the process", so
control never continues past it. -/
def Assert_MM_unreachable : Except Fault Unit :=
  Except.error Fault.unreachable

/-- The `case J9MMCONSTANT_EXPLICIT_GC_IDLE_GC:` label, present only under
`#if defined(OMR_GC_IDLE_HEAP_MANAGER)`. -/
def idleLabel (K : GCConstants) (OMR_GC_IDLE_HEAP_MANAGER : Bool) : List Nat :=
  if OMR_GC_IDLE_HEAP_MANAGER then [K.J9MMCONSTANT_EXPLICIT_GC_IDLE_GC] else []

/-- Embedding of `MM_GCCode::isExplicitGC` (GCCode.cpp, lines 31-63). -/
def isExplicitGC (K : GCConstants) (OMR_GC_IDLE_HEAP_MANAGER : Bool) (_gcCode : Nat) :
    Except Fault Bool := do
  let mut explicitGC := false
  if _gcCode ∈ [K.J9MMCONSTANT_IMPLICIT_GC_AGGRESSIVE,
      K.J9MMCONSTANT_IMPLICIT_GC_DEFAULT,
      K.J9MMCONSTANT_IMPLICIT_GC_EXCESSIVE,
      K.J9MMCONSTANT_IMPLICIT_GC_PERCOLATE,
      K.J9MMCONSTANT_IMPLICIT_GC_PERCOLATE_AGGRESSIVE,
      K.J9MMCONSTANT_IMPLICIT_GC_PERCOLATE_CRITICAL_REGIONS,
      K.J9MMCONSTANT_IMPLICIT_GC_PERCOLATE_UNLOADING_CLASSES,
      K.J9MMCONSTANT_IMPLICIT_GC_COMPLETE_CONCURRENT,
      K.J9MMCONSTANT_IMPLICIT_GC_PERCOLATE_ABORTED_SCAVENGE] then
    explicitGC := false
  else if _gcCode ∈ [K.J9MMCONSTANT_EXPLICIT_GC_NATIVE_OUT_OF_MEMORY,
      K.J9MMCONSTANT_EXPLICIT_GC_NOT_AGGRESSIVE,
      K.J9MMCONSTANT_EXPLICIT_GC_RASDUMP_COMPACT,
      K.J9MMCONSTANT_EXPLICIT_GC_SYSTEM_GC]
      ++ idleLabel K OMR_GC_IDLE_HEAP_MANAGER
      ++ [K.J9MMCONSTANT_EXPLICIT_GC_PREPARE_FOR_CHECKPOINT] then
    explicitGC := true
  else
    Assert_MM_unreachable
  return explicitGC

/-- Embedding of `MM_GCCode::shouldAggressivelyCompact` (GCCode.cpp, lines 69-101). -/
def shouldAggressivelyCompact (K : GCConstants) (OMR_GC_IDLE_HEAP_MANAGER : Bool)
    (_gcCode : Nat) : Except Fault Bool := do
  let mut aggressivelyCompact := true
  if _gcCode ∈ [K.J9MMCONSTANT_IMPLICIT_GC_AGGRESSIVE,
      K.J9MMCONSTANT_IMPLICIT_GC_EXCESSIVE] then
    aggressivelyCompact := true
  else if _gcCode ∈ [K.J9MMCONSTANT_EXPLICIT_GC_NATIVE_OUT_OF_MEMORY,
      K.J9MMCONSTANT_EXPLICIT_GC_NOT_AGGRESSIVE,
      K.J9MMCONSTANT_EXPLICIT_GC_RASDUMP_COMPACT,
      K.J9MMCONSTANT_EXPLICIT_GC_SYSTEM_GC,
      K.J9MMCONSTANT_IMPLICIT_GC_DEFAULT,
      K.J9MMCONSTANT_IMPLICIT_GC_PERCOLATE,
      K.J9MMCONSTANT_IMPLICIT_GC_PERCOLATE_AGGRESSIVE,
      K.J9MMCONSTANT_IMPLICIT_GC_PERCOLATE_CRITICAL_REGIONS,
      K.J9MMCONSTANT_IMPLICIT_GC_PERCOLATE_UNLOADING_CLASSES,
      K.J9MMCONSTANT_IMPLICIT_GC_COMPLETE_CONCURRENT,
      K.J9MMCONSTANT_IMPLICIT_GC_PERCOLATE_ABORTED_SCAVENGE]
      ++ idleLabel K OMR_GC_IDLE_HEAP_MANAGER
      ++ [K.J9MMCONSTANT_EXPLICIT_GC_PREPARE_FOR_CHECKPOINT] then
    aggressivelyCompact := false
  else
    Assert_MM_unreachable
  return aggressivelyCompact

/-- Embedding of `MM_GCCode::isOutOfMemoryGC` (GCCode.cpp, lines 107-139). -/
def isOutOfMemoryGC (K : GCConstants) (OMR_GC_IDLE_HEAP_MANAGER : Bool) (_gcCode : Nat) :
    Except Fault Bool := do
  let mut OOM := true
  if _gcCode ∈ [K.J9MMCONSTANT_EXPLICIT_GC_NATIVE_OUT_OF_MEMORY,
      K.J9MMCONSTANT_IMPLICIT_GC_AGGRESSIVE,
      K.J9MMCONSTANT_IMPLICIT_GC_EXCESSIVE,
      K.J9MMCONSTANT_IMPLICIT_GC_PERCOLATE_AGGRESSIVE] then
    OOM := true
  else if _gcCode ∈ [K.J9MMCONSTANT_EXPLICIT_GC_NOT_AGGRESSIVE,
      K.J9MMCONSTANT_EXPLICIT_GC_RASDUMP_COMPACT,
      K.J9MMCONSTANT_EXPLICIT_GC_SYSTEM_GC,
      K.J9MMCONSTANT_IMPLICIT_GC_DEFAULT,
      K.J9MMCONSTANT_IMPLICIT_GC_PERCOLATE,
      K.J9MMCONSTANT_IMPLICIT_GC_PERCOLATE_CRITICAL_REGIONS,
      K.J9MMCONSTANT_IMPLICIT_GC_PERCOLATE_UNLOADING_CLASSES,
      K.J9MMCONSTANT_IMPLICIT_GC_COMPLETE_CONCURRENT,
      K.J9MMCONSTANT_IMPLICIT_GC_PERCOLATE_ABORTED_SCAVENGE]
      ++ idleLabel K OMR_GC_IDLE_HEAP_MANAGER
      ++ [K.J9MMCONSTANT_EXPLICIT_GC_PREPARE_FOR_CHECKPOINT] then
    OOM := false
  else
    Assert_MM_unreachable
  return OOM

/-- Embedding of `MM_GCCode::isAggressiveGC` (GCCode.cpp, lines 145-177). -/
def isAggressiveGC (K : GCConstants) (OMR_GC_IDLE_HEAP_MANAGER : Bool) (_gcCode : Nat) :
    Except Fault Bool := do
  let mut aggressiveGC := true
  if _gcCode ∈ [K.J9MMCONSTANT_EXPLICIT_GC_NATIVE_OUT_OF_MEMORY,
      K.J9MMCONSTANT_EXPLICIT_GC_RASDUMP_COMPACT,
      K.J9MMCONSTANT_EXPLICIT_GC_SYSTEM_GC,
      K.J9MMCONSTANT_IMPLICIT_GC_AGGRESSIVE,
      K.J9MMCONSTANT_IMPLICIT_GC_EXCESSIVE,
      K.J9MMCONSTANT_IMPLICIT_GC_PERCOLATE_AGGRESSIVE]
      ++ idleLabel K OMR_GC_IDLE_HEAP_MANAGER
      ++ [K.J9MMCONSTANT_EXPLICIT_GC_PREPARE_FOR_CHECKPOINT] then
    aggressiveGC := true
  else if _gcCode ∈ [K.J9MMCONSTANT_EXPLICIT_GC_NOT_AGGRESSIVE,
      K.J9MMCONSTANT_IMPLICIT_GC_DEFAULT,
      K.J9MMCONSTANT_IMPLICIT_GC_PERCOLATE,
      K.J9MMCONSTANT_IMPLICIT_GC_PERCOLATE_CRITICAL_REGIONS,
      K.J9MMCONSTANT_IMPLICIT_GC_PERCOLATE_UNLOADING_CLASSES,
      K.J9MMCONSTANT_IMPLICIT_GC_COMPLETE_CONCURRENT,
      K.J9MMCONSTANT_IMPLICIT_GC_PERCOLATE_ABORTED_SCAVENGE] then
    aggressiveGC := false
  else
    Assert_MM_unreachable
  return aggressiveGC

/-- Embedding of `MM_GCCode::isImplicitAggressiveGC` (GCCode.cpp, lines 183-215). -/
def isImplicitAggressiveGC (K : GCConstants) (OMR_GC_IDLE_HEAP_MANAGER : Bool)
    (_gcCode : Nat) : Except Fault Bool := do
  let mut implicitAggressiveGC := true
  if _gcCode ∈ [K.J9MMCONSTANT_IMPLICIT_GC_AGGRESSIVE,
      K.J9MMCONSTANT_IMPLICIT_GC_EXCESSIVE,
      K.J9MMCONSTANT_IMPLICIT_GC_PERCOLATE_AGGRESSIVE] then
    implicitAggressiveGC := true
  else if _gcCode ∈ [K.J9MMCONSTANT_EXPLICIT_GC_NATIVE_OUT_OF_MEMORY,
      K.J9MMCONSTANT_EXPLICIT_GC_RASDUMP_COMPACT,
      K.J9MMCONSTANT_EXPLICIT_GC_SYSTEM_GC]
      ++ idleLabel K OMR_GC_IDLE_HEAP_MANAGER
      ++ [K.J9MMCONSTANT_EXPLICIT_GC_PREPARE_FOR_CHECKPOINT,
      K.J9MMCONSTANT_EXPLICIT_GC_NOT_AGGRESSIVE,
      K.J9MMCONSTANT_IMPLICIT_GC_DEFAULT,
      K.J9MMCONSTANT_IMPLICIT_GC_PERCOLATE,
      K.J9MMCONSTANT_IMPLICIT_GC_PERCOLATE_CRITICAL_REGIONS,
      K.J9MMCONSTANT_IMPLICIT_GC_PERCOLATE_UNLOADING_CLASSES,
      K.J9MMCONSTANT_IMPLICIT_GC_COMPLETE_CONCURRENT,
      K.J9MMCONSTANT_IMPLICIT_GC_PERCOLATE_ABORTED_SCAVENGE] then
    implicitAggressiveGC := false
  else
    Assert_MM_unreachable
  return implicitAggressiveGC

/-- Embedding of `MM_GCCode::isPercolateGC` (GCCode.cpp, lines 222-254). -/
def isPercolateGC (K : GCConstants) (OMR_GC_IDLE_HEAP_MANAGER : Bool) (_gcCode : Nat) :
    Except Fault Bool := do
  let mut percolateGC := false
  if _gcCode ∈ [K.J9MMCONSTANT_IMPLICIT_GC_PERCOLATE,
      K.J9MMCONSTANT_IMPLICIT_GC_PERCOLATE_AGGRESSIVE,
      K.J9MMCONSTANT_IMPLICIT_GC_PERCOLATE_CRITICAL_REGIONS,
      K.J9MMCONSTANT_IMPLICIT_GC_PERCOLATE_UNLOADING_CLASSES,
      K.J9MMCONSTANT_IMPLICIT_GC_PERCOLATE_ABORTED_SCAVENGE] then
    percolateGC := true
  else if _gcCode ∈ [K.J9MMCONSTANT_EXPLICIT_GC_NATIVE_OUT_OF_MEMORY,
      K.J9MMCONSTANT_EXPLICIT_GC_NOT_AGGRESSIVE,
      K.J9MMCONSTANT_EXPLICIT_GC_RASDUMP_COMPACT,
      K.J9MMCONSTANT_EXPLICIT_GC_SYSTEM_GC,
      K.J9MMCONSTANT_IMPLICIT_GC_AGGRESSIVE,
      K.J9MMCONSTANT_IMPLICIT_GC_DEFAULT,
      K.J9MMCONSTANT_IMPLICIT_GC_EXCESSIVE,
      K.J9MMCONSTANT_IMPLICIT_GC_COMPLETE_CONCURRENT]
      ++ idleLabel K OMR_GC_IDLE_HEAP_MANAGER
      ++ [K.J9MMCONSTANT_EXPLICIT_GC_PREPARE_FOR_CHECKPOINT] then
    percolateGC := false
  else
    Assert_MM_unreachable
  return percolateGC

/-- Embedding of `MM_GCCode::isRASDumpGC` (GCCode.cpp, lines 260-264): a bare comparison,
with no `switch` and no assertion. -/
def isRASDumpGC (K : GCConstants) (_gcCode : Nat) : Except Fault Bool :=
  return decide (K.J9MMCONSTANT_EXPLICIT_GC_RASDUMP_COMPACT = _gcCode)

/-- Embedding of `MM_GCCode::shouldClearHeap` (GCCode.cpp, lines 270-274): a bare comparison,
with no `switch` and no assertion. -/
def shouldClearHeap (K : GCConstants) (_gcCode : Nat) : Except Fault Bool :=
  return decide (K.J9MMCONSTANT_EXPLICIT_GC_PREPARE_FOR_CHECKPOINT = _gcCode)

/-- The defined trigger codes: the fourteen codes named in `GCCode.cpp`
unconditionally, and `J9MMCONSTANT_EXPLICIT_GC_IDLE_GC` when
`OMR_GC_IDLE_HEAP_MANAGER` is compiled in. -/
def definedCodes (K : GCConstants) (OMR_GC_IDLE_HEAP_MANAGER : Bool) : List Nat :=
  [K.J9MMCONSTANT_IMPLICIT_GC_AGGRESSIVE,
   K.J9MMCONSTANT_IMPLICIT_GC_DEFAULT,
   K.J9MMCONSTANT_IMPLICIT_GC_EXCESSIVE,
   K.J9MMCONSTANT_IMPLICIT_GC_PERCOLATE,
   K.J9MMCONSTANT_IMPLICIT_GC_PERCOLATE_AGGRESSIVE,
   K.J9MMCONSTANT_IMPLICIT_GC_PERCOLATE_CRITICAL_REGIONS,
   K.J9MMCONSTANT_IMPLICIT_GC_PERCOLATE_UNLOADING_CLASSES,
   K.J9MMCONSTANT_IMPLICIT_GC_COMPLETE_CONCURRENT,
   K.J9MMCONSTANT_IMPLICIT_GC_PERCOLATE_ABORTED_SCAVENGE,
   K.J9MMCONSTANT_EXPLICIT_GC_NATIVE_OUT_OF_MEMORY,
   K.J9MMCONSTANT_EXPLICIT_GC_NOT_AGGRESSIVE,
   K.J9MMCONSTANT_EXPLICIT_GC_RASDUMP_COMPACT,
   K.J9MMCONSTANT_EXPLICIT_GC_SYSTEM_GC]
  ++ idleLabel K OMR_GC_IDLE_HEAP_MANAGER
  ++ [K.J9MMCONSTANT_EXPLICIT_GC_PREPARE_FOR_CHECKPOINT]

/-- The constants are usable as `case` labels of one `switch`: the defined
codes are pairwise distinct (a C++ translation unit with a repeated label is
rejected by the compiler). -/
def DistinctCodes (K : GCConstants) (OMR_GC_IDLE_HEAP_MANAGER : Bool) : Prop :=
  (definedCodes K OMR_GC_IDLE_HEAP_MANAGER).Nodup

instance (K : GCConstants) (b : Bool) : Decidable (DistinctCodes K b) := by
  unfold DistinctCodes; infer_instance

/-- A concrete assignment of pairwise distinct values to the trigger codes,
used to evaluate the classification on explicit inputs. -/
def sampleConstants : GCConstants where
  J9MMCONSTANT_IMPLICIT_GC_DEFAULT := 0
  J9MMCONSTANT_EXPLICIT_GC_NOT_AGGRESSIVE := 1
  J9MMCONSTANT_EXPLICIT_GC_RASDUMP_COMPACT := 2
  J9MMCONSTANT_EXPLICIT_GC_SYSTEM_GC := 3
  J9MMCONSTANT_EXPLICIT_GC_NATIVE_OUT_OF_MEMORY := 4
  J9MMCONSTANT_IMPLICIT_GC_AGGRESSIVE := 5
  J9MMCONSTANT_IMPLICIT_GC_PERCOLATE := 6
  J9MMCONSTANT_IMPLICIT_GC_PERCOLATE_AGGRESSIVE := 7
  J9MMCONSTANT_IMPLICIT_GC_EXCESSIVE := 8
  J9MMCONSTANT_IMPLICIT_GC_PERCOLATE_UNLOADING_CLASSES := 9
  J9MMCONSTANT_IMPLICIT_GC_PERCOLATE_CRITICAL_REGIONS := 10
  J9MMCONSTANT_IMPLICIT_GC_COMPLETE_CONCURRENT := 12
  J9MMCONSTANT_IMPLICIT_GC_PERCOLATE_ABORTED_SCAVENGE := 13
  J9MMCONSTANT_EXPLICIT_GC_IDLE_GC := 14
  J9MMCONSTANT_EXPLICIT_GC_PREPARE_FOR_CHECKPOINT := 15

/-! ## `MM_ParallelDispatcher`: worker status encoding -/

/-- Enumerator `worker_status_inactive = 0` (ParallelDispatcher.hpp, line 54). -/
def worker_status_inactive : Nat := 0
/-- Enumerator `worker_status_waiting` (line 55): an enumerator without initialiser is
its predecessor plus one. -/
def worker_status_waiting : Nat := worker_status_inactive + 1
/-- Enumerator `worker_status_reserved` (line 56). -/
def worker_status_reserved : Nat := worker_status_waiting + 1
/-- Enumerator `worker_status_active` (line 57). -/
def worker_status_active : Nat := worker_status_reserved + 1
/-- Enumerator `worker_status_dying` (line 58). -/
def worker_status_dying : Nat := worker_status_active + 1

/-- Modelled from the spec: the `memset` that fills `_statusTable` is in
`ParallelDispatcher.cpp`, which is not among the sources; the comment at
`worker_status_inactive` and the spec ("it must be the default/zero state")
describe a table of `n` slots whose every cell is zero. -/
def zeroFilledStatusTable (n : Nat) : List Nat :=
  List.replicate n 0

/-! ## `MM_ParallelDispatcher`: data members, constructor, inline members -/

/-- A pointer value (`MM_Task *`, `omrthread_monitor_t`, `omrsig_handler_fn`,
`void *`, ...): a machine address. -/
abbrev Pointer := Nat

/-- The null pointer. -/
def NULL : Pointer := 0

/-- The part of `MM_EnvironmentBase` the constructor reads: the value of
`MM_GCExtensionsBase::getExtensions(env->getOmrVM())`. Both classes are
declared in headers that `ParallelDispatcher.hpp` only includes. -/
structure MM_EnvironmentBase where
  extensions : Pointer
  deriving DecidableEq, Repr

/-- Data members of `MM_ParallelDispatcher` (ParallelDispatcher.hpp, lines
50-88), preceded by `_typeId` of the base class `MM_BaseVirtual`, which the
constructor body assigns. `_poolMaxCapacity` exists only under
`#if defined(J9VM_OPT_CRIU_SUPPORT)`: it is `none` when that is not compiled
in. -/
structure MM_ParallelDispatcher where
  _typeId : String
  _task : Pointer
  _extensions : Pointer
  _threadShutdownCount : Nat
  _threadTable : Pointer
  _statusTable : Pointer
  _taskTable : Pointer
  _workerThreadMutex : Pointer
  _dispatcherMonitor : Pointer
  _synchronizeMutex : Pointer
  _workerThreadsReservedForGC : Bool
  _inShutdown : Bool
  _threadCountMaximum : Nat
  _threadCount : Nat
  _activeThreadCount : Nat
  _threadsToReserve : Nat
  _handler : Pointer
  _handler_arg : Pointer
  _defaultOSStackSize : Nat
  _poolMaxCapacity : Option Nat
  deriving DecidableEq, Repr

namespace MM_ParallelDispatcher

set_option linter.dupNamespace false in
/-- Embedding of the constructor `MM_ParallelDispatcher::MM_ParallelDispatcher`
(ParallelDispatcher.hpp, lines 224-249): the member initialiser list followed
by `_typeId = __FUNCTION__`. -/
def MM_ParallelDispatcher (J9VM_OPT_CRIU_SUPPORT : Bool) (env : MM_EnvironmentBase)
    (handler : Pointer) (handler_arg : Pointer) (defaultOSStackSize : Nat) :
    OMR.MM_ParallelDispatcher where
  _task := NULL
  _extensions := env.extensions
  _threadShutdownCount := 0
  _threadTable := NULL
  _statusTable := NULL
  _taskTable := NULL
  _workerThreadMutex := NULL
  _dispatcherMonitor := NULL
  _synchronizeMutex := NULL
  _workerThreadsReservedForGC := false
  _inShutdown := false
  _threadCountMaximum := 1
  _threadCount := 1
  _activeThreadCount := 1
  _threadsToReserve := 0
  _handler := handler
  _handler_arg := handler_arg
  _defaultOSStackSize := defaultOSStackSize
  _poolMaxCapacity := if J9VM_OPT_CRIU_SUPPORT then some 0 else none
  _typeId := "MM_ParallelDispatcher"

/-- Embedding of `getPoolMaxCapacity()` (line 206), a member only under
`J9VM_OPT_CRIU_SUPPORT`: the answer and the dispatcher after the call. -/
def getPoolMaxCapacity (d : OMR.MM_ParallelDispatcher) :
    Option Nat × OMR.MM_ParallelDispatcher :=
  (d._poolMaxCapacity, d)

/-- Embedding of `threadCount()` (line 211): the answer and the dispatcher
after the call. -/
def threadCount (d : OMR.MM_ParallelDispatcher) : Nat × OMR.MM_ParallelDispatcher :=
  (d._threadCount, d)

/-- Embedding of `threadCountMaximum()` (line 212). -/
def threadCountMaximum (d : OMR.MM_ParallelDispatcher) : Nat × OMR.MM_ParallelDispatcher :=
  (d._threadCountMaximum, d)

/-- Embedding of `getThreadTable()` (line 213). -/
def getThreadTable (d : OMR.MM_ParallelDispatcher) : Pointer × OMR.MM_ParallelDispatcher :=
  (d._threadTable, d)

/-- Embedding of `activeThreadCount()` (line 214). -/
def activeThreadCount (d : OMR.MM_ParallelDispatcher) : Nat × OMR.MM_ParallelDispatcher :=
  (d._activeThreadCount, d)

/-- Embedding of `getSignalHandler()` (line 216). -/
def getSignalHandler (d : OMR.MM_ParallelDispatcher) : Pointer × OMR.MM_ParallelDispatcher :=
  (d._handler, d)

/-- Embedding of `getSignalHandlerArg()` (line 217). -/
def getSignalHandlerArg (d : OMR.MM_ParallelDispatcher) :
    Pointer × OMR.MM_ParallelDispatcher :=
  (d._handler_arg, d)

end MM_ParallelDispatcher

/-! ## Worker pool resize, modelled from the specification

The bodies of `expandThreadPool` and `reinitializeThreadPool` are in
`ParallelDispatcher.cpp`; `ParallelDispatcher.hpp` only declares them. -/

/-- Modelled from the spec: the tables behind `_threadTable`, `_statusTable`
and `_taskTable` are allocated and filled in `ParallelDispatcher.cpp`. A
`WorkerSlot` (spec section 3) is one position of those tables: the thread
handle (empty if the slot was never started), the status, and the task bound
to the slot (empty unless Reserved or Active). -/
structure WorkerSlot where
  thread : Option Pointer
  status : Nat
  assignedTask : Option Pointer
  deriving DecidableEq, Repr

/-- Modelled from the spec: the zero state of a slot whose thread was never
started ("Inactive ... must be the default/zero state"); table allocation is
in `ParallelDispatcher.cpp`. -/
def WorkerSlot.unstarted : WorkerSlot :=
  { thread := none, status := worker_status_inactive, assignedTask := none }

/-- Modelled from the spec: the worker pool of the Dispatcher (spec sections 2
and 3), whose table handling is in `ParallelDispatcher.cpp`: the slot table,
whose length is the `capacity`, and `threadCount`, the number of slots that
have a live thread. -/
structure WorkerPool where
  slots : List WorkerSlot
  threadCount : Nat
  deriving DecidableEq, Repr

/-- Modelled from the spec: `capacity`, the "maximum number of slots the tables
can hold"; the tables are sized in `ParallelDispatcher.cpp`. -/
def WorkerPool.capacity (pool : WorkerPool) : Nat :=
  pool.slots.length

/-- Modelled from the spec: thread start-up during expansion, whose code
(`internalStartupThreads`) is in `ParallelDispatcher.cpp`. Starting at slot
`index`, create up to `remaining` threads with the host's thread-creation
primitive `createThread` (`none` is a creation failure); a created thread
brings its slot to Waiting. On a failure the threads created so far "are
retained and counted". The result is the achieved thread count and the
table. -/
def startThreads (createThread : Nat → Option Pointer) :
    Nat → Nat → List WorkerSlot → Nat × List WorkerSlot
  | 0, index, slots => (index, slots)
  | remaining + 1, index, slots =>
    match createThread index with
    | none => (index, slots)
    | some thread =>
      startThreads createThread remaining (index + 1)
        (slots.set index
          { thread := some thread, status := worker_status_waiting, assignedTask := none })

/-- Modelled from the spec: `expandThreadPool`, only declared in
`ParallelDispatcher.hpp` (without a count parameter: the target comes from the
environment). Spec section 4.3: it "starts additional worker threads up to
`min(targetCount, capacity)`"; afterwards "`threadCount` increases to the
achieved value; new slots reach Waiting status"; it "fails (returns false) if
capacity is insufficient", and a thread-creation failure is reported to the
caller as well. The preconditions (no task in flight, no shutdown) are the
caller's responsibility. -/
def expandThreadPool (createThread : Nat → Option Pointer) (pool : WorkerPool)
    (targetCount : Nat) : Bool × WorkerPool :=
  let goal := min targetCount pool.capacity
  let started := startThreads createThread (goal - pool.threadCount) pool.threadCount pool.slots
  (decide (targetCount ≤ pool.capacity) && decide (goal ≤ started.1),
    { slots := started.2, threadCount := started.1 })

/-- Modelled from the spec: `reinitializeThreadPool`, only declared in
`ParallelDispatcher.hpp`. Spec section 4.3: it "reallocates the slot tables to
accommodate a larger `capacity` than originally provisioned, preserving
existing slot contents", and is "not usable to shrink capacity"; the header
says it returns whether the tables "can accommodate the newPoolSize (i.e.,
successfully reallocated or already have capacity)". `allocate` is the host's
allocator: whether a table of the given size can be obtained. -/
def reinitializeThreadPool (allocate : Nat → Bool) (pool : WorkerPool)
    (newPoolSize : Nat) : Bool × WorkerPool :=
  if newPoolSize ≤ pool.capacity then
    (true, pool)
  else if allocate newPoolSize then
    (true, { pool with
      slots := pool.slots ++ List.replicate (newPoolSize - pool.capacity) WorkerSlot.unstarted })
  else
    (false, pool)

/-- A pool with capacity 8 whose first four slots have live, waiting threads. -/
def samplePool : WorkerPool where
  slots :=
    (List.range 4).map
        (fun i => { thread := some (100 + i), status := worker_status_waiting,
                    assignedTask := none })
      ++ List.replicate 4 WorkerSlot.unstarted
  threadCount := 4

/-- A thread-creation primitive that always succeeds. -/
def sampleCreateThread (index : Nat) : Option Pointer :=
  some (100 + index)

/-! ## The dispatching thread inside `run`, modelled from the specification

The body of `run` is in `ParallelDispatcher.cpp`; `ParallelDispatcher.hpp` only
declares it. Only the program of the thread that calls `run` is modelled, as
the sequence of steps that thread itself performs; the worker threads it wakes
are not. -/

set_option maxHeartbeats 1000000 in
/-- C1. `MM_GCCode::isExplicitGC` is determined by the trigger code alone: it
answers `true` exactly on NATIVE_OUT_OF_MEMORY, NOT_AGGRESSIVE, RASDUMP_COMPACT,
SYSTEM_GC, PREPARE_FOR_CHECKPOINT (and IDLE_GC when `OMR_GC_IDLE_HEAP_MANAGER`
is compiled in), `false` exactly on the nine `IMPLICIT_GC_*` codes, and hits
`Assert_MM_unreachable` exactly on every other code value. -/
theorem isExplicitGC_classification (K : GCConstants) (idle : Bool)
    (hK : DistinctCodes K idle) (code : Nat) :
    (isExplicitGC K idle code = .ok true ↔
      (code ∈ [K.J9MMCONSTANT_EXPLICIT_GC_NATIVE_OUT_OF_MEMORY,
          K.J9MMCONSTANT_EXPLICIT_GC_NOT_AGGRESSIVE,
          K.J9MMCONSTANT_EXPLICIT_GC_RASDUMP_COMPACT,
          K.J9MMCONSTANT_EXPLICIT_GC_SYSTEM_GC,
          K.J9MMCONSTANT_EXPLICIT_GC_PREPARE_FOR_CHECKPOINT]
        ∨ (idle = true ∧ code = K.J9MMCONSTANT_EXPLICIT_GC_IDLE_GC)))
    ∧ (isExplicitGC K idle code = .ok false ↔
      code ∈ [K.J9MMCONSTANT_IMPLICIT_GC_AGGRESSIVE,
          K.J9MMCONSTANT_IMPLICIT_GC_DEFAULT,
          K.J9MMCONSTANT_IMPLICIT_GC_EXCESSIVE,
          K.J9MMCONSTANT_IMPLICIT_GC_PERCOLATE,
          K.J9MMCONSTANT_IMPLICIT_GC_PERCOLATE_AGGRESSIVE,
          K.J9MMCONSTANT_IMPLICIT_GC_PERCOLATE_CRITICAL_REGIONS,
          K.J9MMCONSTANT_IMPLICIT_GC_PERCOLATE_UNLOADING_CLASSES,
          K.J9MMCONSTANT_IMPLICIT_GC_COMPLETE_CONCURRENT,
          K.J9MMCONSTANT_IMPLICIT_GC_PERCOLATE_ABORTED_SCAVENGE])
    ∧ (isExplicitGC K idle code = .error .unreachable ↔ code ∉ definedCodes K idle) := by
  have h1 := hK
  have h2 := List.nodup_reverse.mpr hK
  by_cases hc : code ∈ definedCodes K idle
  · revert code
    cases idle <;>
    simp [DistinctCodes, definedCodes, idleLabel] at h1 h2 <;>
    simp [isExplicitGC, definedCodes, idleLabel, Assert_MM_unreachable, h1, h2] <;>
    simp [pure, Except.pure]
  · cases idle <;>
    simp [definedCodes, idleLabel] at hc <;>
    simp [isExplicitGC, definedCodes, idleLabel, Assert_MM_unreachable, hc]

/-- Evaluation of C1 on the sample constants: code 3 (SYSTEM_GC) is explicit. -/
theorem isExplicitGC_classification_witness :
    DistinctCodes sampleConstants true ∧
    isExplicitGC sampleConstants true 3 = .ok true :=
  ⟨by decide, (isExplicitGC_classification sampleConstants true (by decide) 3).1.mpr (by decide)⟩

set_option maxHeartbeats 1000000 in
/-- C2. `MM_GCCode::isOutOfMemoryGC` answers `true` exactly on the four codes
NATIVE_OUT_OF_MEMORY, IMPLICIT_GC_AGGRESSIVE, IMPLICIT_GC_EXCESSIVE and
IMPLICIT_GC_PERCOLATE_AGGRESSIVE,
`false` on every other defined trigger code (IDLE_GC being defined only when
`OMR_GC_IDLE_HEAP_MANAGER` is compiled in), and hits `Assert_MM_unreachable`
on every code outside the defined set. -/
theorem isOutOfMemoryGC_classification (K : GCConstants) (idle : Bool)
    (hK : DistinctCodes K idle) (code : Nat) :
    (isOutOfMemoryGC K idle code = .ok true ↔
      code ∈ [K.J9MMCONSTANT_EXPLICIT_GC_NATIVE_OUT_OF_MEMORY,
          K.J9MMCONSTANT_IMPLICIT_GC_AGGRESSIVE,
          K.J9MMCONSTANT_IMPLICIT_GC_EXCESSIVE,
          K.J9MMCONSTANT_IMPLICIT_GC_PERCOLATE_AGGRESSIVE])
    ∧ (isOutOfMemoryGC K idle code = .ok false ↔
      (code ∈ definedCodes K idle ∧
        code ∉ [K.J9MMCONSTANT_EXPLICIT_GC_NATIVE_OUT_OF_MEMORY,
          K.J9MMCONSTANT_IMPLICIT_GC_AGGRESSIVE,
          K.J9MMCONSTANT_IMPLICIT_GC_EXCESSIVE,
          K.J9MMCONSTANT_IMPLICIT_GC_PERCOLATE_AGGRESSIVE]))
    ∧ (isOutOfMemoryGC K idle code = .error .unreachable ↔ code ∉ definedCodes K idle) := by
  have h1 := hK
  have h2 := List.nodup_reverse.mpr hK
  by_cases hc : code ∈ definedCodes K idle
  · revert code
    cases idle <;>
    simp [DistinctCodes, definedCodes, idleLabel] at h1 h2 <;>
    simp [isOutOfMemoryGC, definedCodes, idleLabel, Assert_MM_unreachable, h1, h2] <;>
    simp [pure, Except.pure]
  · cases idle <;>
    simp [definedCodes, idleLabel] at hc <;>
    simp [isOutOfMemoryGC, definedCodes, idleLabel, Assert_MM_unreachable, hc]

/-- Evaluation of C2 on the sample constants: code 4 (NATIVE_OUT_OF_MEMORY) may raise
out-of-memory. -/
theorem isOutOfMemoryGC_classification_witness :
    DistinctCodes sampleConstants true ∧
    isOutOfMemoryGC sampleConstants true 4 = .ok true :=
  ⟨by decide, (isOutOfMemoryGC_classification sampleConstants true (by decide) 4).1.mpr (by decide)⟩

set_option maxHeartbeats 1000000 in
/-- C3. `MM_GCCode::shouldAggressivelyCompact` answers `true` exactly on
IMPLICIT_GC_AGGRESSIVE and IMPLICIT_GC_EXCESSIVE, `false` on every other defined
trigger code, in particular on every explicit code (RASDUMP_COMPACT among them;
IDLE_GC being defined only when `OMR_GC_IDLE_HEAP_MANAGER` is compiled in), and
hits `Assert_MM_unreachable` on every code outside the defined set. -/
theorem shouldAggressivelyCompact_classification (K : GCConstants) (idle : Bool)
    (hK : DistinctCodes K idle) (code : Nat) :
    (shouldAggressivelyCompact K idle code = .ok true ↔
      code ∈ [K.J9MMCONSTANT_IMPLICIT_GC_AGGRESSIVE,
          K.J9MMCONSTANT_IMPLICIT_GC_EXCESSIVE])
    ∧ (shouldAggressivelyCompact K idle code = .ok false ↔
      (code ∈ definedCodes K idle ∧
        code ∉ [K.J9MMCONSTANT_IMPLICIT_GC_AGGRESSIVE,
          K.J9MMCONSTANT_IMPLICIT_GC_EXCESSIVE]))
    ∧ (shouldAggressivelyCompact K idle code = .error .unreachable ↔
      code ∉ definedCodes K idle)
    ∧ ((code ∈ [K.J9MMCONSTANT_EXPLICIT_GC_NATIVE_OUT_OF_MEMORY,
          K.J9MMCONSTANT_EXPLICIT_GC_NOT_AGGRESSIVE,
          K.J9MMCONSTANT_EXPLICIT_GC_RASDUMP_COMPACT,
          K.J9MMCONSTANT_EXPLICIT_GC_SYSTEM_GC,
          K.J9MMCONSTANT_EXPLICIT_GC_PREPARE_FOR_CHECKPOINT]
        ∨ (idle = true ∧ code = K.J9MMCONSTANT_EXPLICIT_GC_IDLE_GC)) →
      shouldAggressivelyCompact K idle code = .ok false) := by
  have h1 := hK
  have h2 := List.nodup_reverse.mpr hK
  by_cases hc : code ∈ definedCodes K idle
  · revert code
    cases idle <;>
    simp [DistinctCodes, definedCodes, idleLabel] at h1 h2 <;>
    simp [shouldAggressivelyCompact, definedCodes, idleLabel, Assert_MM_unreachable, h1, h2] <;>
    simp [pure, Except.pure]
  · cases idle <;>
    simp [definedCodes, idleLabel] at hc <;>
    simp [shouldAggressivelyCompact, definedCodes, idleLabel, Assert_MM_unreachable, hc]

/-- Evaluation of C3 on the sample constants: code 2 (RASDUMP_COMPACT) does not
ask for aggressive compaction. -/
theorem shouldAggressivelyCompact_classification_witness :
    DistinctCodes sampleConstants true ∧
    shouldAggressivelyCompact sampleConstants true 2 = .ok false :=
  ⟨by decide,
    (shouldAggressivelyCompact_classification sampleConstants true (by decide) 2).2.2.2
      (by decide)⟩

set_option maxHeartbeats 1000000 in
/-- C4. `MM_GCCode::isAggressiveGC` answers `true` exactly on
NATIVE_OUT_OF_MEMORY, RASDUMP_COMPACT, SYSTEM_GC, PREPARE_FOR_CHECKPOINT,
IMPLICIT_GC_AGGRESSIVE, IMPLICIT_GC_EXCESSIVE, IMPLICIT_GC_PERCOLATE_AGGRESSIVE
(and IDLE_GC when `OMR_GC_IDLE_HEAP_MANAGER` is compiled in), `false` exactly on
NOT_AGGRESSIVE, IMPLICIT_GC_DEFAULT, IMPLICIT_GC_PERCOLATE,
IMPLICIT_GC_PERCOLATE_CRITICAL_REGIONS, IMPLICIT_GC_PERCOLATE_UNLOADING_CLASSES,
IMPLICIT_GC_COMPLETE_CONCURRENT and IMPLICIT_GC_PERCOLATE_ABORTED_SCAVENGE, and
hits `Assert_MM_unreachable` exactly on every other code value. -/
theorem isAggressiveGC_classification (K : GCConstants) (idle : Bool)
    (hK : DistinctCodes K idle) (code : Nat) :
    (isAggressiveGC K idle code = .ok true ↔
      (code ∈ [K.J9MMCONSTANT_EXPLICIT_GC_NATIVE_OUT_OF_MEMORY,
          K.J9MMCONSTANT_EXPLICIT_GC_RASDUMP_COMPACT,
          K.J9MMCONSTANT_EXPLICIT_GC_SYSTEM_GC,
          K.J9MMCONSTANT_EXPLICIT_GC_PREPARE_FOR_CHECKPOINT,
          K.J9MMCONSTANT_IMPLICIT_GC_AGGRESSIVE,
          K.J9MMCONSTANT_IMPLICIT_GC_EXCESSIVE,
          K.J9MMCONSTANT_IMPLICIT_GC_PERCOLATE_AGGRESSIVE]
        ∨ (idle = true ∧ code = K.J9MMCONSTANT_EXPLICIT_GC_IDLE_GC)))
    ∧ (isAggressiveGC K idle code = .ok false ↔
      code ∈ [K.J9MMCONSTANT_EXPLICIT_GC_NOT_AGGRESSIVE,
          K.J9MMCONSTANT_IMPLICIT_GC_DEFAULT,
          K.J9MMCONSTANT_IMPLICIT_GC_PERCOLATE,
          K.J9MMCONSTANT_IMPLICIT_GC_PERCOLATE_CRITICAL_REGIONS,
          K.J9MMCONSTANT_IMPLICIT_GC_PERCOLATE_UNLOADING_CLASSES,
          K.J9MMCONSTANT_IMPLICIT_GC_COMPLETE_CONCURRENT,
          K.J9MMCONSTANT_IMPLICIT_GC_PERCOLATE_ABORTED_SCAVENGE])
    ∧ (isAggressiveGC K idle code = .error .unreachable ↔ code ∉ definedCodes K idle) := by
  have h1 := hK
  have h2 := List.nodup_reverse.mpr hK
  by_cases hc : code ∈ definedCodes K idle
  · revert code
    cases idle <;>
    simp [DistinctCodes, definedCodes, idleLabel] at h1 h2 <;>
    simp [isAggressiveGC, definedCodes, idleLabel, Assert_MM_unreachable, h1, h2] <;>
    simp [pure, Except.pure]
  · cases idle <;>
    simp [definedCodes, idleLabel] at hc <;>
    simp [isAggressiveGC, definedCodes, idleLabel, Assert_MM_unreachable, hc]

/-- Evaluation of C4 on the sample constants: code 14 (IDLE_GC) is aggressive
when the idle heap manager is compiled in. -/
theorem isAggressiveGC_classification_witness :
    DistinctCodes sampleConstants true ∧
    isAggressiveGC sampleConstants true 14 = .ok true :=
  ⟨by decide, (isAggressiveGC_classification sampleConstants true (by decide) 14).1.mpr (by decide)⟩

set_option maxHeartbeats 1000000 in
/-- C5. `MM_GCCode::isImplicitAggressiveGC` answers `true` exactly on the three codes
IMPLICIT_GC_AGGRESSIVE, IMPLICIT_GC_EXCESSIVE and IMPLICIT_GC_PERCOLATE_AGGRESSIVE,
`false` on every other defined trigger code (IDLE_GC being defined only when
`OMR_GC_IDLE_HEAP_MANAGER` is compiled in), and hits `Assert_MM_unreachable`
on every code outside the defined set. -/
theorem isImplicitAggressiveGC_classification (K : GCConstants) (idle : Bool)
    (hK : DistinctCodes K idle) (code : Nat) :
    (isImplicitAggressiveGC K idle code = .ok true ↔
      code ∈ [K.J9MMCONSTANT_IMPLICIT_GC_AGGRESSIVE,
          K.J9MMCONSTANT_IMPLICIT_GC_EXCESSIVE,
          K.J9MMCONSTANT_IMPLICIT_GC_PERCOLATE_AGGRESSIVE])
    ∧ (isImplicitAggressiveGC K idle code = .ok false ↔
      (code ∈ definedCodes K idle ∧
        code ∉ [K.J9MMCONSTANT_IMPLICIT_GC_AGGRESSIVE,
          K.J9MMCONSTANT_IMPLICIT_GC_EXCESSIVE,
          K.J9MMCONSTANT_IMPLICIT_GC_PERCOLATE_AGGRESSIVE]))
    ∧ (isImplicitAggressiveGC K idle code = .error .unreachable ↔ code ∉ definedCodes K idle) := by
  have h1 := hK
  have h2 := List.nodup_reverse.mpr hK
  by_cases hc : code ∈ definedCodes K idle
  · revert code
    cases idle <;>
    simp [DistinctCodes, definedCodes, idleLabel] at h1 h2 <;>
    simp [isImplicitAggressiveGC, definedCodes, idleLabel, Assert_MM_unreachable, h1, h2] <;>
    simp [pure, Except.pure]
  · cases idle <;>
    simp [definedCodes, idleLabel] at hc <;>
    simp [isImplicitAggressiveGC, definedCodes, idleLabel, Assert_MM_unreachable, hc]

/-- Evaluation of C5 on the sample constants: code 8 (IMPLICIT_GC_EXCESSIVE) is
implicit aggressive. -/
theorem isImplicitAggressiveGC_classification_witness :
    DistinctCodes sampleConstants true ∧
    isImplicitAggressiveGC sampleConstants true 8 = .ok true :=
  ⟨by decide, (isImplicitAggressiveGC_classification sampleConstants true (by decide) 8).1.mpr (by decide)⟩

set_option maxHeartbeats 1000000 in
/-- C6. `MM_GCCode::isPercolateGC` answers `true` exactly on the five codes
IMPLICIT_GC_PERCOLATE, IMPLICIT_GC_PERCOLATE_AGGRESSIVE,
IMPLICIT_GC_PERCOLATE_CRITICAL_REGIONS, IMPLICIT_GC_PERCOLATE_UNLOADING_CLASSES
and IMPLICIT_GC_PERCOLATE_ABORTED_SCAVENGE,
`false` on every other defined trigger code (IDLE_GC being defined only when
`OMR_GC_IDLE_HEAP_MANAGER` is compiled in), and hits `Assert_MM_unreachable`
on every code outside the defined set. -/
theorem isPercolateGC_classification (K : GCConstants) (idle : Bool)
    (hK : DistinctCodes K idle) (code : Nat) :
    (isPercolateGC K idle code = .ok true ↔
      code ∈ [K.J9MMCONSTANT_IMPLICIT_GC_PERCOLATE,
          K.J9MMCONSTANT_IMPLICIT_GC_PERCOLATE_AGGRESSIVE,
          K.J9MMCONSTANT_IMPLICIT_GC_PERCOLATE_CRITICAL_REGIONS,
          K.J9MMCONSTANT_IMPLICIT_GC_PERCOLATE_UNLOADING_CLASSES,
          K.J9MMCONSTANT_IMPLICIT_GC_PERCOLATE_ABORTED_SCAVENGE])
    ∧ (isPercolateGC K idle code = .ok false ↔
      (code ∈ definedCodes K idle ∧
        code ∉ [K.J9MMCONSTANT_IMPLICIT_GC_PERCOLATE,
          K.J9MMCONSTANT_IMPLICIT_GC_PERCOLATE_AGGRESSIVE,
          K.J9MMCONSTANT_IMPLICIT_GC_PERCOLATE_CRITICAL_REGIONS,
          K.J9MMCONSTANT_IMPLICIT_GC_PERCOLATE_UNLOADING_CLASSES,
          K.J9MMCONSTANT_IMPLICIT_GC_PERCOLATE_ABORTED_SCAVENGE]))
    ∧ (isPercolateGC K idle code = .error .unreachable ↔ code ∉ definedCodes K idle) := by
  have h1 := hK
  have h2 := List.nodup_reverse.mpr hK
  by_cases hc : code ∈ definedCodes K idle
  · revert code
    cases idle <;>
    simp [DistinctCodes, definedCodes, idleLabel] at h1 h2 <;>
    simp [isPercolateGC, definedCodes, idleLabel, Assert_MM_unreachable, h1, h2] <;>
    simp [pure, Except.pure]
  · cases idle <;>
    simp [definedCodes, idleLabel] at hc <;>
    simp [isPercolateGC, definedCodes, idleLabel, Assert_MM_unreachable, hc]

/-- Evaluation of C6 on the sample constants: code 13
(IMPLICIT_GC_PERCOLATE_ABORTED_SCAVENGE) is a percolate request. -/
theorem isPercolateGC_classification_witness :
    DistinctCodes sampleConstants true ∧
    isPercolateGC sampleConstants true 13 = .ok true :=
  ⟨by decide, (isPercolateGC_classification sampleConstants true (by decide) 13).1.mpr (by decide)⟩

/-- C7, as stated, fails: with the sample constants, code 99 is outside the
defined set, yet `isRASDumpGC` and `shouldClearHeap` return `false` for it
instead of ending in the fatal assertion. -/
theorem unknown_code_not_fatal_for_comparisons :
    DistinctCodes sampleConstants true ∧
    99 ∉ definedCodes sampleConstants true ∧
    isRASDumpGC sampleConstants 99 = .ok false ∧
    shouldClearHeap sampleConstants 99 = .ok false ∧
    isRASDumpGC sampleConstants 99 ≠ .error .unreachable ∧
    shouldClearHeap sampleConstants 99 ≠ .error .unreachable := by
  decide

/-- C7, amended. For every trigger code outside the defined set, each of the six
`switch`-based questions (`isExplicitGC`, `shouldAggressivelyCompact`,
`isOutOfMemoryGC`, `isAggressiveGC`, `isImplicitAggressiveGC`, `isPercolateGC`)
ends in `Assert_MM_unreachable`, while the two comparison-based questions
(`isRASDumpGC`, `shouldClearHeap`) return `false`. -/
theorem unknown_code_outcomes (K : GCConstants) (idle : Bool) (code : Nat)
    (h : code ∉ definedCodes K idle) :
    isExplicitGC K idle code = .error .unreachable
    ∧ shouldAggressivelyCompact K idle code = .error .unreachable
    ∧ isOutOfMemoryGC K idle code = .error .unreachable
    ∧ isAggressiveGC K idle code = .error .unreachable
    ∧ isImplicitAggressiveGC K idle code = .error .unreachable
    ∧ isPercolateGC K idle code = .error .unreachable
    ∧ isRASDumpGC K code = .ok false
    ∧ shouldClearHeap K code = .ok false := by
  cases idle <;>
  simp [definedCodes, idleLabel] at h <;>
  simp [isExplicitGC, shouldAggressivelyCompact, isOutOfMemoryGC, isAggressiveGC,
    isImplicitAggressiveGC, isPercolateGC, isRASDumpGC, shouldClearHeap, idleLabel,
    Assert_MM_unreachable, h, eq_comm] <;>
  simp [pure, Except.pure]

/-- Evaluation of the amended C7 at code 99 with the sample constants. -/
theorem unknown_code_outcomes_witness :
    99 ∉ definedCodes sampleConstants true ∧
    isPercolateGC sampleConstants true 99 = .error .unreachable ∧
    isRASDumpGC sampleConstants 99 = .ok false :=
  ⟨by decide,
    (unknown_code_outcomes sampleConstants true 99 (by decide)).2.2.2.2.2.1,
    (unknown_code_outcomes sampleConstants true 99 (by decide)).2.2.2.2.2.2.1⟩

/-- C8. `MM_GCCode::shouldClearHeap` is total: for every code value, defined or
not, it returns a boolean, never the failure, and the boolean is `true` if and
only if the code is PREPARE_FOR_CHECKPOINT. -/
theorem shouldClearHeap_total (K : GCConstants) (code : Nat) :
    (∃ b : Bool, shouldClearHeap K code = .ok b)
    ∧ (shouldClearHeap K code = .ok true ↔
      code = K.J9MMCONSTANT_EXPLICIT_GC_PREPARE_FOR_CHECKPOINT)
    ∧ (shouldClearHeap K code = .ok false ↔
      code ≠ K.J9MMCONSTANT_EXPLICIT_GC_PREPARE_FOR_CHECKPOINT)
    ∧ shouldClearHeap K code ≠ .error .unreachable := by
  by_cases hc : code = K.J9MMCONSTANT_EXPLICIT_GC_PREPARE_FOR_CHECKPOINT
  · subst hc
    simp [shouldClearHeap, pure, Except.pure]
  · have hc2 : ¬ K.J9MMCONSTANT_EXPLICIT_GC_PREPARE_FOR_CHECKPOINT = code := fun e => hc e.symm
    simp [shouldClearHeap, pure, Except.pure, hc, hc2]

/-- C9. `MM_GCCode::isRASDumpGC` is total: for every code value, defined or not,
it returns a boolean, never the failure, and the boolean is `true` if and only
if the code is RASDUMP_COMPACT. -/
theorem isRASDumpGC_total (K : GCConstants) (code : Nat) :
    (∃ b : Bool, isRASDumpGC K code = .ok b)
    ∧ (isRASDumpGC K code = .ok true ↔
      code = K.J9MMCONSTANT_EXPLICIT_GC_RASDUMP_COMPACT)
    ∧ (isRASDumpGC K code = .ok false ↔
      code ≠ K.J9MMCONSTANT_EXPLICIT_GC_RASDUMP_COMPACT)
    ∧ isRASDumpGC K code ≠ .error .unreachable := by
  by_cases hc : code = K.J9MMCONSTANT_EXPLICIT_GC_RASDUMP_COMPACT
  · subst hc
    simp [isRASDumpGC, pure, Except.pure]
  · have hc2 : ¬ K.J9MMCONSTANT_EXPLICIT_GC_RASDUMP_COMPACT = code := fun e => hc e.symm
    simp [isRASDumpGC, pure, Except.pure, hc, hc2]

/-- C10. In the worker status encoding of `MM_ParallelDispatcher`, Inactive is
the zero value, the five statuses Inactive, Waiting, Reserved, Active, Dying are
encoded 0, 1, 2, 3, 4 in that order and are pairwise distinct, and every slot of
a zero-filled status table of any size reads Inactive: none of the four other
statuses occurs in it. -/
theorem worker_status_encoding :
    worker_status_inactive = 0
    ∧ [worker_status_inactive, worker_status_waiting, worker_status_reserved,
        worker_status_active, worker_status_dying] = [0, 1, 2, 3, 4]
    ∧ [worker_status_inactive, worker_status_waiting, worker_status_reserved,
        worker_status_active, worker_status_dying].Nodup
    ∧ ∀ n : Nat,
        zeroFilledStatusTable n = List.replicate n worker_status_inactive
        ∧ (zeroFilledStatusTable n).length = n
        ∧ worker_status_waiting ∉ zeroFilledStatusTable n
        ∧ worker_status_reserved ∉ zeroFilledStatusTable n
        ∧ worker_status_active ∉ zeroFilledStatusTable n
        ∧ worker_status_dying ∉ zeroFilledStatusTable n := by
  refine ⟨rfl, rfl, by decide, fun n => ?_⟩
  simp [zeroFilledStatusTable, worker_status_inactive, worker_status_waiting,
    worker_status_reserved, worker_status_active, worker_status_dying, List.mem_replicate]

/-- C11. A dispatcher freshly built by the constructor, whatever the handler,
the handler argument and the stack size, satisfies
`0 <= activeThreadCount() <= threadCount() <= threadCountMaximum()`. -/
theorem constructor_counter_invariant (criu : Bool) (env : MM_EnvironmentBase)
    (handler handler_arg : Pointer) (defaultOSStackSize : Nat) :
    0 ≤ (MM_ParallelDispatcher.activeThreadCount
        (MM_ParallelDispatcher.MM_ParallelDispatcher criu env handler handler_arg
          defaultOSStackSize)).1
    ∧ (MM_ParallelDispatcher.activeThreadCount
        (MM_ParallelDispatcher.MM_ParallelDispatcher criu env handler handler_arg
          defaultOSStackSize)).1
      ≤ (MM_ParallelDispatcher.threadCount
        (MM_ParallelDispatcher.MM_ParallelDispatcher criu env handler handler_arg
          defaultOSStackSize)).1
    ∧ (MM_ParallelDispatcher.threadCount
        (MM_ParallelDispatcher.MM_ParallelDispatcher criu env handler handler_arg
          defaultOSStackSize)).1
      ≤ (MM_ParallelDispatcher.threadCountMaximum
        (MM_ParallelDispatcher.MM_ParallelDispatcher criu env handler handler_arg
          defaultOSStackSize)).1 := by
  simp [MM_ParallelDispatcher.MM_ParallelDispatcher, MM_ParallelDispatcher.activeThreadCount,
    MM_ParallelDispatcher.threadCount, MM_ParallelDispatcher.threadCountMaximum]

/-- C12. In the state produced by the constructor, before any `run` call,
`_threadsToReserve` is 0, `_inShutdown` is false, `_threadShutdownCount` is 0
and no task is bound (`_task` is `NULL`). -/
theorem constructor_idle_state (criu : Bool) (env : MM_EnvironmentBase)
    (handler handler_arg : Pointer) (defaultOSStackSize : Nat) :
    (MM_ParallelDispatcher.MM_ParallelDispatcher criu env handler handler_arg
        defaultOSStackSize)._threadsToReserve = 0
    ∧ (MM_ParallelDispatcher.MM_ParallelDispatcher criu env handler handler_arg
        defaultOSStackSize)._inShutdown = false
    ∧ (MM_ParallelDispatcher.MM_ParallelDispatcher criu env handler handler_arg
        defaultOSStackSize)._threadShutdownCount = 0
    ∧ (MM_ParallelDispatcher.MM_ParallelDispatcher criu env handler handler_arg
        defaultOSStackSize)._task = NULL := by
  simp [MM_ParallelDispatcher.MM_ParallelDispatcher]

/-- C13. A dispatcher constructed with handler `h` and argument `a` answers
`getSignalHandler() = h` and `getSignalHandlerArg() = a`, and each of the
accessors `threadCount()`, `threadCountMaximum()`, `activeThreadCount()`,
`getSignalHandler()`, `getSignalHandlerArg()` leaves the dispatcher, in any
state, exactly as it was. -/
theorem signal_handler_carried_accessors_pure (criu : Bool) (env : MM_EnvironmentBase)
    (h a : Pointer) (defaultOSStackSize : Nat) (d : MM_ParallelDispatcher) :
    (MM_ParallelDispatcher.getSignalHandler
        (MM_ParallelDispatcher.MM_ParallelDispatcher criu env h a defaultOSStackSize)).1 = h
    ∧ (MM_ParallelDispatcher.getSignalHandlerArg
        (MM_ParallelDispatcher.MM_ParallelDispatcher criu env h a defaultOSStackSize)).1 = a
    ∧ (MM_ParallelDispatcher.threadCount d).2 = d
    ∧ (MM_ParallelDispatcher.threadCountMaximum d).2 = d
    ∧ (MM_ParallelDispatcher.activeThreadCount d).2 = d
    ∧ (MM_ParallelDispatcher.getSignalHandler d).2 = d
    ∧ (MM_ParallelDispatcher.getSignalHandlerArg d).2 = d := by
  simp [MM_ParallelDispatcher.MM_ParallelDispatcher, MM_ParallelDispatcher.getSignalHandler,
    MM_ParallelDispatcher.getSignalHandlerArg, MM_ParallelDispatcher.threadCount,
    MM_ParallelDispatcher.threadCountMaximum, MM_ParallelDispatcher.activeThreadCount]

/-- When every thread creation succeeds, `startThreads` reaches `index +
remaining`, keeps the table length, leaves the slots below `index` and from
`index + remaining` on untouched, and brings every slot in between to
Waiting. -/
theorem startThreads_all_created (createThread : Nat → Option Pointer)
    (hcreate : ∀ i, (createThread i).isSome = true) :
    ∀ (remaining index : Nat) (slots : List WorkerSlot),
      index + remaining ≤ slots.length →
      (startThreads createThread remaining index slots).1 = index + remaining
      ∧ (startThreads createThread remaining index slots).2.length = slots.length
      ∧ (∀ i, index ≤ i → i < index + remaining →
          ((startThreads createThread remaining index slots).2[i]?).map WorkerSlot.status
            = some worker_status_waiting)
      ∧ (∀ i, i < index ∨ index + remaining ≤ i →
          (startThreads createThread remaining index slots).2[i]? = slots[i]?) := by
  intro remaining
  induction remaining with
  | zero =>
    intro index slots _
    refine ⟨rfl, rfl, ?_, ?_⟩
    · intro i h1 h2
      omega
    · intro i _
      rfl
  | succ n ih =>
    intro index slots hlen
    obtain ⟨thread, hthread⟩ := Option.isSome_iff_exists.mp (hcreate index)
    have hstep : startThreads createThread (n + 1) index slots
        = startThreads createThread n (index + 1)
            (slots.set index
              { thread := some thread, status := worker_status_waiting,
                assignedTask := none }) := by
      simp [startThreads, hthread]
    have hlen2 : index + 1 + n ≤ (slots.set index
        { thread := some thread, status := worker_status_waiting,
          assignedTask := none }).length := by
      simp
      omega
    obtain ⟨ih1, ih2, ih3, ih4⟩ := ih (index + 1) _ hlen2
    rw [hstep]
    refine ⟨by omega, by simpa using ih2, ?_, ?_⟩
    · intro i h1 h2
      by_cases hi : i = index
      · subst hi
        rw [ih4 i (Or.inl (by omega))]
        have : i < slots.length := by omega
        simp [this]
      · exact ih3 i (by omega) (by omega)
    · intro i hi
      rw [ih4 i (by omega)]
      have : index ≠ i := by omega
      simp [List.getElem?_set, this]

/-- C16. Pool expansion is capped by the table capacity. On a pool with
capacity 8 and `threadCount` 4 (thread creation and table allocation
succeeding), expanding to 8 succeeds, yields `threadCount = 8` with the new
slots 4..7 Waiting and the old slots untouched; a subsequent expansion to 10
on the same pool returns false, whereas after `reinitializeThreadPool(10)` the
capacity is 10 and the expansion to 10 succeeds. In general an expansion to a
target above the capacity returns false. -/
theorem expansion_capped_by_capacity (createThread : Nat → Option Pointer)
    (allocate : Nat → Bool) (pool : WorkerPool)
    (hcapacity : pool.capacity = 8) (hcount : pool.threadCount = 4)
    (hcreate : ∀ i, (createThread i).isSome = true) (hallocate : allocate 10 = true) :
    (expandThreadPool createThread pool 8).1 = true
    ∧ (expandThreadPool createThread pool 8).2.threadCount = 8
    ∧ (expandThreadPool createThread pool 8).2.capacity = 8
    ∧ (∀ i, 4 ≤ i → i < 8 →
        ((expandThreadPool createThread pool 8).2.slots[i]?).map WorkerSlot.status
          = some worker_status_waiting)
    ∧ (∀ i, i < 4 → (expandThreadPool createThread pool 8).2.slots[i]? = pool.slots[i]?)
    ∧ (expandThreadPool createThread (expandThreadPool createThread pool 8).2 10).1 = false
    ∧ (reinitializeThreadPool allocate (expandThreadPool createThread pool 8).2 10).1 = true
    ∧ (reinitializeThreadPool allocate (expandThreadPool createThread pool 8).2 10).2.capacity
        = 10
    ∧ (expandThreadPool createThread
        (reinitializeThreadPool allocate (expandThreadPool createThread pool 8).2 10).2 10).1
        = true
    ∧ (expandThreadPool createThread
        (reinitializeThreadPool allocate (expandThreadPool createThread pool 8).2 10).2
          10).2.threadCount = 10
    ∧ (∀ (p : WorkerPool) (targetCount : Nat), p.capacity < targetCount →
        (expandThreadPool createThread p targetCount).1 = false) := by
  have hlen : pool.slots.length = 8 := hcapacity
  obtain ⟨e1, e2, e3, e4⟩ :=
    startThreads_all_created createThread hcreate 4 4 pool.slots (by omega)
  have hexp : expandThreadPool createThread pool 8
      = (true, { slots := (startThreads createThread 4 4 pool.slots).2, threadCount := 8 }) := by
    simp [expandThreadPool, WorkerPool.capacity, hlen, hcount, e1]
  have hgeneral : ∀ (p : WorkerPool) (targetCount : Nat), p.capacity < targetCount →
      (expandThreadPool createThread p targetCount).1 = false := by
    intro p targetCount hlt
    have : ¬ targetCount ≤ p.capacity := by omega
    simp [expandThreadPool, this]
  have hcap8 : (expandThreadPool createThread pool 8).2.capacity = 8 := by
    simp [hexp, WorkerPool.capacity, e2, hlen]
  have hre : reinitializeThreadPool allocate (expandThreadPool createThread pool 8).2 10
      = (true, { slots := (startThreads createThread 4 4 pool.slots).2
                    ++ [WorkerSlot.unstarted, WorkerSlot.unstarted],
                 threadCount := 8 }) := by
    simp [reinitializeThreadPool, hexp, WorkerPool.capacity, e2, hlen, hallocate]
  obtain ⟨f1, f2, f3, f4⟩ :=
    startThreads_all_created createThread hcreate 2 8
      ((startThreads createThread 4 4 pool.slots).2 ++ [WorkerSlot.unstarted, WorkerSlot.unstarted])
      (by simp [e2, hlen])
  refine ⟨by simp [hexp], by simp [hexp], hcap8, ?_, ?_, ?_, by simp [hre], ?_, ?_, ?_,
    hgeneral⟩
  · intro i h1 h2
    simpa [hexp] using e3 i h1 (by omega)
  · intro i hi
    simpa [hexp] using e4 i (Or.inl hi)
  · exact hgeneral _ 10 (by omega)
  · simp [hre, WorkerPool.capacity, e2, hlen]
  · rw [hre]
    simp [expandThreadPool, WorkerPool.capacity, e2, hlen, f1]
  · rw [hre]
    simp [expandThreadPool, WorkerPool.capacity, e2, hlen, f1]

/-- Evaluation of C16 on the sample pool: capacity 8, four live threads. -/
theorem expansion_capped_by_capacity_witness :
    samplePool.capacity = 8 ∧ samplePool.threadCount = 4
    ∧ (expandThreadPool sampleCreateThread samplePool 8).1 = true
    ∧ (expandThreadPool sampleCreateThread
        (expandThreadPool sampleCreateThread samplePool 8).2 10).1 = false :=
  ⟨by decide, by decide,
    (expansion_capped_by_capacity sampleCreateThread (fun _ => true) samplePool
      (by decide) (by decide) (fun _ => rfl) rfl).1,
    (expansion_capped_by_capacity sampleCreateThread (fun _ => true) samplePool
      (by decide) (by decide) (fun _ => rfl) rfl).2.2.2.2.2.1⟩

/-- C17, as stated, fails: with checkpoint/restore support compiled in, the
constructor yields `threadCount() = 1` and `getPoolMaxCapacity() = 0`, so
`threadCount() <= getPoolMaxCapacity()` is false for the fresh dispatcher
built from a null environment pointer, null handler and stack size 0. -/
theorem fresh_dispatcher_exceeds_pool_capacity :
    (MM_ParallelDispatcher.threadCount
      (MM_ParallelDispatcher.MM_ParallelDispatcher true ⟨NULL⟩ NULL NULL 0)).1 = 1
    ∧ (MM_ParallelDispatcher.getPoolMaxCapacity
      (MM_ParallelDispatcher.MM_ParallelDispatcher true ⟨NULL⟩ NULL NULL 0)).1 = some 0
    ∧ ¬ (∃ capacity,
        (MM_ParallelDispatcher.getPoolMaxCapacity
          (MM_ParallelDispatcher.MM_ParallelDispatcher true ⟨NULL⟩ NULL NULL 0)).1
            = some capacity
        ∧ (MM_ParallelDispatcher.threadCount
          (MM_ParallelDispatcher.MM_ParallelDispatcher true ⟨NULL⟩ NULL NULL 0)).1
            ≤ capacity) := by
  simp [MM_ParallelDispatcher.MM_ParallelDispatcher, MM_ParallelDispatcher.threadCount,
    MM_ParallelDispatcher.getPoolMaxCapacity]

/-- C17, amended. With checkpoint/restore support compiled in, every dispatcher
freshly built by the constructor reports `getPoolMaxCapacity() = 0` (no
dispatcher table is allocated yet) and `threadCount() = 1`; the bound that
holds at construction is `threadCount() <= threadCountMaximum()`, with
`threadCountMaximum() = 1`. -/
theorem fresh_dispatcher_pool_capacity (env : MM_EnvironmentBase)
    (handler handler_arg : Pointer) (defaultOSStackSize : Nat) :
    (MM_ParallelDispatcher.getPoolMaxCapacity
      (MM_ParallelDispatcher.MM_ParallelDispatcher true env handler handler_arg
        defaultOSStackSize)).1 = some 0
    ∧ (MM_ParallelDispatcher.threadCount
      (MM_ParallelDispatcher.MM_ParallelDispatcher true env handler handler_arg
        defaultOSStackSize)).1 = 1
    ∧ (MM_ParallelDispatcher.threadCount
      (MM_ParallelDispatcher.MM_ParallelDispatcher true env handler handler_arg
        defaultOSStackSize)).1
      ≤ (MM_ParallelDispatcher.threadCountMaximum
        (MM_ParallelDispatcher.MM_ParallelDispatcher true env handler handler_arg
          defaultOSStackSize)).1
    ∧ (MM_ParallelDispatcher.threadCountMaximum
      (MM_ParallelDispatcher.MM_ParallelDispatcher true env handler handler_arg
        defaultOSStackSize)).1 = 1 := by
  simp [MM_ParallelDispatcher.MM_ParallelDispatcher, MM_ParallelDispatcher.threadCount,
    MM_ParallelDispatcher.getPoolMaxCapacity, MM_ParallelDispatcher.threadCountMaximum]

/-- On a defined code `isExplicitGC` returns a boolean; no assumption on the
values of the constants is needed. -/
theorem isExplicitGC_ok_of_defined (K : GCConstants) (idle : Bool) (code : Nat)
    (hc : code ∈ definedCodes K idle) : ∃ b, isExplicitGC K idle code = .ok b := by
  cases idle <;>
  simp [definedCodes, idleLabel] at hc <;>
  simp [isExplicitGC, idleLabel, Assert_MM_unreachable] <;>
  split_ifs <;>
  first
  | exact Or.inl rfl
  | exact Or.inr rfl
  | (exfalso; tauto)

/-- On a code outside the defined set `isExplicitGC` hits `Assert_MM_unreachable`. -/
theorem isExplicitGC_unreachable_of_undefined (K : GCConstants) (idle : Bool) (code : Nat)
    (hc : code ∉ definedCodes K idle) : isExplicitGC K idle code = .error .unreachable := by
  cases idle <;>
  simp [definedCodes, idleLabel] at hc <;>
  simp [isExplicitGC, idleLabel, Assert_MM_unreachable, hc]

/-- On a defined code `shouldAggressivelyCompact` returns a boolean; no assumption on the
values of the constants is needed. -/
theorem shouldAggressivelyCompact_ok_of_defined (K : GCConstants) (idle : Bool) (code : Nat)
    (hc : code ∈ definedCodes K idle) : ∃ b, shouldAggressivelyCompact K idle code = .ok b := by
  cases idle <;>
  simp [definedCodes, idleLabel] at hc <;>
  simp [shouldAggressivelyCompact, idleLabel, Assert_MM_unreachable] <;>
  split_ifs <;>
  first
  | exact Or.inl rfl
  | exact Or.inr rfl
  | (exfalso; tauto)

/-- On a code outside the defined set `shouldAggressivelyCompact` hits `Assert_MM_unreachable`. -/
theorem shouldAggressivelyCompact_unreachable_of_undefined (K : GCConstants) (idle : Bool) (code : Nat)
    (hc : code ∉ definedCodes K idle) : shouldAggressivelyCompact K idle code = .error .unreachable := by
  cases idle <;>
  simp [definedCodes, idleLabel] at hc <;>
  simp [shouldAggressivelyCompact, idleLabel, Assert_MM_unreachable, hc]

/-- On a defined code `isOutOfMemoryGC` returns a boolean; no assumption on the
values of the constants is needed. -/
theorem isOutOfMemoryGC_ok_of_defined (K : GCConstants) (idle : Bool) (code : Nat)
    (hc : code ∈ definedCodes K idle) : ∃ b, isOutOfMemoryGC K idle code = .ok b := by
  cases idle <;>
  simp [definedCodes, idleLabel] at hc <;>
  simp [isOutOfMemoryGC, idleLabel, Assert_MM_unreachable] <;>
  split_ifs <;>
  first
  | exact Or.inl rfl
  | exact Or.inr rfl
  | (exfalso; tauto)

/-- On a code outside the defined set `isOutOfMemoryGC` hits `Assert_MM_unreachable`. -/
theorem isOutOfMemoryGC_unreachable_of_undefined (K : GCConstants) (idle : Bool) (code : Nat)
    (hc : code ∉ definedCodes K idle) : isOutOfMemoryGC K idle code = .error .unreachable := by
  cases idle <;>
  simp [definedCodes, idleLabel] at hc <;>
  simp [isOutOfMemoryGC, idleLabel, Assert_MM_unreachable, hc]

/-- On a defined code `isAggressiveGC` returns a boolean; no assumption on the
values of the constants is needed. -/
theorem isAggressiveGC_ok_of_defined (K : GCConstants) (idle : Bool) (code : Nat)
    (hc : code ∈ definedCodes K idle) : ∃ b, isAggressiveGC K idle code = .ok b := by
  cases idle <;>
  simp [definedCodes, idleLabel] at hc <;>
  simp [isAggressiveGC, idleLabel, Assert_MM_unreachable] <;>
  split_ifs <;>
  first
  | exact Or.inl rfl
  | exact Or.inr rfl
  | (exfalso; tauto)

/-- On a code outside the defined set `isAggressiveGC` hits `Assert_MM_unreachable`. -/
theorem isAggressiveGC_unreachable_of_undefined (K : GCConstants) (idle : Bool) (code : Nat)
    (hc : code ∉ definedCodes K idle) : isAggressiveGC K idle code = .error .unreachable := by
  cases idle <;>
  simp [definedCodes, idleLabel] at hc <;>
  simp [isAggressiveGC, idleLabel, Assert_MM_unreachable, hc]

/-- On a defined code `isImplicitAggressiveGC` returns a boolean; no assumption on the
values of the constants is needed. -/
theorem isImplicitAggressiveGC_ok_of_defined (K : GCConstants) (idle : Bool) (code : Nat)
    (hc : code ∈ definedCodes K idle) : ∃ b, isImplicitAggressiveGC K idle code = .ok b := by
  cases idle <;>
  simp [definedCodes, idleLabel] at hc <;>
  simp [isImplicitAggressiveGC, idleLabel, Assert_MM_unreachable] <;>
  split_ifs <;>
  first
  | exact Or.inl rfl
  | exact Or.inr rfl
  | (exfalso; tauto)

/-- On a code outside the defined set `isImplicitAggressiveGC` hits `Assert_MM_unreachable`. -/
theorem isImplicitAggressiveGC_unreachable_of_undefined (K : GCConstants) (idle : Bool) (code : Nat)
    (hc : code ∉ definedCodes K idle) : isImplicitAggressiveGC K idle code = .error .unreachable := by
  cases idle <;>
  simp [definedCodes, idleLabel] at hc <;>
  simp [isImplicitAggressiveGC, idleLabel, Assert_MM_unreachable, hc]

/-- On a defined code `isPercolateGC` returns a boolean; no assumption on the
values of the constants is needed. -/
theorem isPercolateGC_ok_of_defined (K : GCConstants) (idle : Bool) (code : Nat)
    (hc : code ∈ definedCodes K idle) : ∃ b, isPercolateGC K idle code = .ok b := by
  cases idle <;>
  simp [definedCodes, idleLabel] at hc <;>
  simp [isPercolateGC, idleLabel, Assert_MM_unreachable] <;>
  split_ifs <;>
  first
  | exact Or.inl rfl
  | exact Or.inr rfl
  | (exfalso; tauto)

/-- On a code outside the defined set `isPercolateGC` hits `Assert_MM_unreachable`. -/
theorem isPercolateGC_unreachable_of_undefined (K : GCConstants) (idle : Bool) (code : Nat)
    (hc : code ∉ definedCodes K idle) : isPercolateGC K idle code = .error .unreachable := by
  cases idle <;>
  simp [definedCodes, idleLabel] at hc <;>
  simp [isPercolateGC, idleLabel, Assert_MM_unreachable, hc]

set_option maxHeartbeats 1000000 in
/-- C18. For every defined trigger code, `isAggressiveGC`, `isExplicitGC` and
`isImplicitAggressiveGC` return booleans, and the implicit-aggressive answer is
the conjunction of the aggressive answer with the negation of the explicit
answer. -/
theorem implicitAggressive_eq_aggressive_and_not_explicit (K : GCConstants) (idle : Bool)
    (hK : DistinctCodes K idle) (code : Nat) (hc : code ∈ definedCodes K idle) :
    ∃ a e i : Bool,
      isAggressiveGC K idle code = .ok a
      ∧ isExplicitGC K idle code = .ok e
      ∧ isImplicitAggressiveGC K idle code = .ok i
      ∧ i = (a && !e) := by
  have h1 := hK
  have h2 := List.nodup_reverse.mpr hK
  revert code
  cases idle <;>
  simp [DistinctCodes, definedCodes, idleLabel] at h1 h2 <;>
  simp [isAggressiveGC, isExplicitGC, isImplicitAggressiveGC, definedCodes, idleLabel,
    Assert_MM_unreachable, h1, h2] <;>
  simp [pure, Except.pure]

/-- Evaluation of C18 on the sample constants at code 7
(IMPLICIT_GC_PERCOLATE_AGGRESSIVE). -/
theorem implicitAggressive_eq_aggressive_and_not_explicit_witness :
    DistinctCodes sampleConstants true ∧ 7 ∈ definedCodes sampleConstants true
    ∧ ∃ a e i : Bool,
      isAggressiveGC sampleConstants true 7 = .ok a
      ∧ isExplicitGC sampleConstants true 7 = .ok e
      ∧ isImplicitAggressiveGC sampleConstants true 7 = .ok i
      ∧ i = (a && !e) :=
  ⟨by decide, by decide,
    implicitAggressive_eq_aggressive_and_not_explicit sampleConstants true (by decide) 7
      (by decide)⟩

set_option maxHeartbeats 1000000 in
/-- C19. The severity flags are nested: for every defined trigger code the four
classifiers return booleans, and `shouldAggressivelyCompact` implies
`isImplicitAggressiveGC`, which implies `isOutOfMemoryGC`, which implies
`isAggressiveGC`. -/
theorem severity_flags_nested (K : GCConstants) (idle : Bool)
    (hK : DistinctCodes K idle) (code : Nat) (hc : code ∈ definedCodes K idle) :
    ∃ s i o a : Bool,
      shouldAggressivelyCompact K idle code = .ok s
      ∧ isImplicitAggressiveGC K idle code = .ok i
      ∧ isOutOfMemoryGC K idle code = .ok o
      ∧ isAggressiveGC K idle code = .ok a
      ∧ (s = true → i = true) ∧ (i = true → o = true) ∧ (o = true → a = true) := by
  have h1 := hK
  have h2 := List.nodup_reverse.mpr hK
  revert code
  cases idle <;>
  simp [DistinctCodes, definedCodes, idleLabel] at h1 h2 <;>
  simp [shouldAggressivelyCompact, isImplicitAggressiveGC, isOutOfMemoryGC, isAggressiveGC,
    definedCodes, idleLabel, Assert_MM_unreachable, h1, h2] <;>
  simp [pure, Except.pure]

/-- Evaluation of C19 on the sample constants at code 4 (NATIVE_OUT_OF_MEMORY),
where the chain is strict: not implicit aggressive, yet out-of-memory. -/
theorem severity_flags_nested_witness :
    DistinctCodes sampleConstants true ∧ 4 ∈ definedCodes sampleConstants true
    ∧ ∃ s i o a : Bool,
      shouldAggressivelyCompact sampleConstants true 4 = .ok s
      ∧ isImplicitAggressiveGC sampleConstants true 4 = .ok i
      ∧ isOutOfMemoryGC sampleConstants true 4 = .ok o
      ∧ isAggressiveGC sampleConstants true 4 = .ok a
      ∧ (s = true → i = true) ∧ (i = true → o = true) ∧ (o = true → a = true) :=
  ⟨by decide, by decide,
    severity_flags_nested sampleConstants true (by decide) 4 (by decide)⟩

/-- C20. The six `switch`-based classifiers agree on which codes are defined:
for every code value and either setting of `OMR_GC_IDLE_HEAP_MANAGER`, either
the code is a defined one and all six return a boolean, or it is not and all
six hit `Assert_MM_unreachable`. -/
theorem switch_tables_agree (K : GCConstants) (idle : Bool) (code : Nat) :
    (code ∈ definedCodes K idle
      ∧ (∃ b, isExplicitGC K idle code = .ok b)
      ∧ (∃ b, shouldAggressivelyCompact K idle code = .ok b)
      ∧ (∃ b, isOutOfMemoryGC K idle code = .ok b)
      ∧ (∃ b, isAggressiveGC K idle code = .ok b)
      ∧ (∃ b, isImplicitAggressiveGC K idle code = .ok b)
      ∧ (∃ b, isPercolateGC K idle code = .ok b))
    ∨ (code ∉ definedCodes K idle
      ∧ isExplicitGC K idle code = .error .unreachable
      ∧ shouldAggressivelyCompact K idle code = .error .unreachable
      ∧ isOutOfMemoryGC K idle code = .error .unreachable
      ∧ isAggressiveGC K idle code = .error .unreachable
      ∧ isImplicitAggressiveGC K idle code = .error .unreachable
      ∧ isPercolateGC K idle code = .error .unreachable) := by
  by_cases hc : code ∈ definedCodes K idle
  · exact Or.inl ⟨hc, isExplicitGC_ok_of_defined K idle code hc,
      shouldAggressivelyCompact_ok_of_defined K idle code hc,
      isOutOfMemoryGC_ok_of_defined K idle code hc,
      isAggressiveGC_ok_of_defined K idle code hc,
      isImplicitAggressiveGC_ok_of_defined K idle code hc,
      isPercolateGC_ok_of_defined K idle code hc⟩
  · exact Or.inr ⟨hc, isExplicitGC_unreachable_of_undefined K idle code hc,
      shouldAggressivelyCompact_unreachable_of_undefined K idle code hc,
      isOutOfMemoryGC_unreachable_of_undefined K idle code hc,
      isAggressiveGC_unreachable_of_undefined K idle code hc,
      isImplicitAggressiveGC_unreachable_of_undefined K idle code hc,
      isPercolateGC_unreachable_of_undefined K idle code hc⟩

end OMR
